import Mathlib

/-
  Verification development for the Surv-IR semantic analyzer.

  The definitions below are a shallow embedding of the analyzer core:
  `src/symbol.rs` (symbol table and reference resolver), `src/project.rs`
  and `src/project_checker.rs` (module-requires graph), `src/checker.rs`
  (unit checker) and `src/deploy/checker.rs` (deploy checker).

  Modelling conventions:
  - Rust `String` and `PathBuf` are Lean `String`.
  - `HashMap`/`BTreeMap`/`HashSet` values are association lists
    (`List (κ × α)`) with first-match lookup; iteration order is the
    insertion order of the list.  Where a checker's observable output
    depends only on membership this is exact; where the Rust map
    iteration order differs (sorted `BTreeMap`, arbitrary `HashMap`)
    the concrete inputs used in the theorems are arranged so that list
    order and map order coincide.
  - functions that push into a `&mut Vec<Diagnostic>` are modelled as
    functions returning the list of diagnostics they push, in push order.
  - recursive graph walks (DFS, BFS) take an explicit fuel argument;
    callers pass a fuel that exceeds the number of possible steps, so
    the fuel-exhaustion branch is never taken on the calls made here.
-/

/-- Diagnostic entity from `src/diagnostic.rs`. -/
structure Diagnostic where
  severity : String
  kind : String
  message : String
  location : String
deriving DecidableEq, Repr

/-- First-match lookup in an association list (models `HashMap::get` /
`BTreeMap::get`). -/
def getAssoc {κ α : Type} [DecidableEq κ] : List (κ × α) → κ → Option α
  | [], _ => none
  | (k0, v) :: rest, k => if k0 = k then some v else getAssoc rest k

/-- Key-membership in an association list (models `contains_key`). -/
def containsKeyA {κ α : Type} [DecidableEq κ] (m : List (κ × α)) (k : κ) : Bool :=
  (getAssoc m k).isSome

/-- Insert-or-overwrite in an association list (models `insert`). -/
def insertAssoc {κ α : Type} [DecidableEq κ] : List (κ × α) → κ → α → List (κ × α)
  | [], k, v => [(k, v)]
  | (k0, v0) :: rest, k, v =>
    if k0 = k then (k0, v) :: rest else (k0, v0) :: insertAssoc rest k v

/-- `strip_prefix(p)` on strings: `some` of the remainder when `p` is a
prefix, else `none` (implemented on the character lists so that proofs
can evaluate it). -/
def stripPfxOpt (p s : String) : Option String :=
  if p.data.isPrefixOf s.data then some ⟨s.data.drop p.data.length⟩ else none

/-- `strip_prefix(p).unwrap_or(s)`: remainder when prefixed, else `s`. -/
def stripPfxOr (p s : String) : String :=
  (stripPfxOpt p s).getD s

/- ===================== Declaration model (src/ast.rs) ===================== -/

/-- Spec IR schema section (`SchemaSection` in `src/ast.rs`). -/
structure SchemaSection where
  name : String
  kind : String
  role : String
  type : String
  «from» : String
  «to» : String
  base : String
  label : String
  fields : List (String × String)
  over : List String
deriving DecidableEq, Repr

/-- Spec IR func section (`FuncSection` in `src/ast.rs`). -/
structure FuncSection where
  name : String
  intent : String
  input : List String
  output : List String
deriving DecidableEq, Repr

/-- Spec IR module section (`ModSection` in `src/ast.rs`). -/
structure ModSection where
  name : String
  purpose : String
  schemas : List String
  funcs : List String
  pipeline : List String
deriving DecidableEq, Repr

/-- Spec IR meta section (`MetaSection` in `src/ast.rs`). -/
structure MetaSection where
  name : String
  version : String
  description : String
deriving DecidableEq, Repr

/-- Spec IR status section (`StatusSection` in `src/ast.rs`); its payload is
irrelevant to the analysis core. -/
structure StatusSection where
  name : String
  updated_at : String
deriving DecidableEq, Repr

/-- A declaration section of a spec unit (`Section` in `src/ast.rs`). -/
inductive Section where
  | Meta : MetaSection → Section
  | Schema : SchemaSection → Section
  | Func : FuncSection → Section
  | Mod : ModSection → Section
  | Status : StatusSection → Section
deriving DecidableEq, Repr

/-- Import directive of a unit (`ImportDecl` in `src/ast.rs`). -/
structure ImportDecl where
  target : String
  «alias» : Option String
deriving DecidableEq, Repr

/-- Require directive of a unit (`RequireDecl` in `src/ast.rs`). -/
structure RequireDecl where
  target : String
deriving DecidableEq, Repr

/-- One parsed spec unit (`SurvFile` in `src/ast.rs`). -/
structure SurvFile where
  package : Option String
  nspace : Option String
  imports : List ImportDecl
  requires : List RequireDecl
  sections : List Section
deriving DecidableEq, Repr

/- ===================== Symbol table (src/symbol.rs) ===================== -/

/-- `SymbolKind` from `src/symbol.rs`. -/
inductive SymbolKind where
  | Schema
  | Func
  | Mod
deriving DecidableEq, Repr

/-- `SymbolEntry` from `src/symbol.rs` (`namespace` is spelled `nspace`,
`file` is the unit path as a string). -/
structure SymbolEntry where
  kind : SymbolKind
  package : String
  fq_name : String
  local_name : String
  nspace : Option String
  file : String
deriving DecidableEq, Repr

/-- `SymbolTable` from `src/symbol.rs`. -/
structure SymbolTable where
  entries : List SymbolEntry
deriving DecidableEq, Repr

/-- Kind tag used in fully-qualified names (`build_fq_name`). -/
def kindTag : SymbolKind → String
  | SymbolKind.Schema => "schema"
  | SymbolKind.Func => "func"
  | SymbolKind.Mod => "mod"

/-- `build_fq_name` from `src/symbol.rs`:
`pkg.<package>.<kind>.<namespace-or-global>.<local_name>`. -/
def build_fq_name (kind : SymbolKind) (package : String) (nspace : Option String)
    (local_name : String) : String :=
  "pkg." ++ package ++ "." ++ kindTag kind ++ "." ++ nspace.getD "global" ++ "." ++ local_name

/-- `make_entry` from `src/symbol.rs`. -/
def make_entry (kind : SymbolKind) (package : String) (nspace : Option String)
    (local_name : String) (path : String) : SymbolEntry :=
  { kind := kind
    package := package
    fq_name := build_fq_name kind package nspace local_name
    local_name := local_name
    nspace := nspace
    file := path }

/-- Key type of the `defined` duplicate-detection map in
`build_symbol_table_with_packages`. -/
abbrev DefKey := SymbolKind × String × Option String × String

/-- `report_duplicates` from `src/symbol.rs`: returns the updated `defined`
map together with the diagnostics pushed (one `W_AMBIGUOUS_NAME` naming both
files when the key is already occupied; otherwise the key is recorded). -/
def report_duplicates (defined : List (DefKey × String)) (entry : SymbolEntry)
    (current_path : String) : List (DefKey × String) × List Diagnostic :=
  let key : DefKey := (entry.kind, entry.package, entry.nspace, entry.local_name)
  match getAssoc defined key with
  | some existing =>
    (defined,
      [{ severity := "warning"
         kind := "W_AMBIGUOUS_NAME"
         message := "Symbol '" ++ entry.fq_name ++ "' is defined in both " ++ existing
           ++ " and " ++ current_path
         location := current_path }])
  | none => (insertAssoc defined key current_path, [])

/-- The symbol-table entry a section contributes, if any (the three
`Section::Schema/Func/Mod` arms of `build_symbol_table_with_packages`). -/
def sectionEntry (package : String) (nspace : Option String) (path : String) :
    Section → Option SymbolEntry
  | Section.Schema s => some (make_entry SymbolKind.Schema package nspace s.name path)
  | Section.Func f => some (make_entry SymbolKind.Func package nspace f.name path)
  | Section.Mod m => some (make_entry SymbolKind.Mod package nspace m.name path)
  | Section.Meta _ => none
  | Section.Status _ => none

/-- Inner loop of `build_symbol_table_with_packages` over one unit's
sections, threading the `defined` map. -/
def buildSections (package : String) (nspace : Option String) (path : String)
    (defined : List (DefKey × String)) :
    List Section → List SymbolEntry × List Diagnostic × List (DefKey × String)
  | [] => ([], [], defined)
  | s :: rest =>
    match sectionEntry package nspace path s with
    | none => buildSections package nspace path defined rest
    | some entry =>
      let (defined2, diags) := report_duplicates defined entry path
      let (entries, moreDiags, defined3) := buildSections package nspace path defined2 rest
      (entry :: entries, diags ++ moreDiags, defined3)

/-- Outer loop of `build_symbol_table_with_packages` over units. -/
def buildFiles (assignments : String → Option String)
    (defined : List (DefKey × String)) :
    List (String × SurvFile) → List SymbolEntry × List Diagnostic × List (DefKey × String)
  | [] => ([], [], defined)
  | (path, file) :: rest =>
    let package :=
      match assignments path with
      | some p => p
      | none =>
        match file.package with
        | some p => p
        | none => "default"
    let (entries, diags, defined2) := buildSections package file.nspace path defined file.sections
    let (entries2, diags2, defined3) := buildFiles assignments defined2 rest
    (entries ++ entries2, diags ++ diags2, defined3)

/-- `build_symbol_table_with_packages` from `src/symbol.rs`: a linear pass
over all units collecting entries and duplicate warnings. -/
def build_symbol_table_with_packages (files : List (String × SurvFile))
    (assignments : String → Option String) : SymbolTable × List Diagnostic :=
  let (entries, diags, _) := buildFiles assignments [] files
  (⟨entries⟩, diags)

/- ===================== Reference resolver (src/symbol.rs) ===================== -/

/-- `ImportEntry` from `src/imports.rs`. -/
structure ImportEntry where
  package : String
  «alias» : Option String
deriving DecidableEq, Repr

/-- `FileImportContext` from `src/imports.rs`. -/
structure FileImportContext where
  file_path : String
  self_package : String
  nspace : Option String
  imports : List ImportEntry
deriving DecidableEq, Repr

/-- `split_reference` from `src/symbol.rs`: split at the first dot. -/
def split_reference (r : String) : Option String × String :=
  match r.data.findIdx? (fun c => c = '.') with
  | none => (none, r)
  | some i => (some ⟨r.data.take i⟩, ⟨r.data.drop (i + 1)⟩)

/-- `extract_local_name` from `src/symbol.rs`: everything after the first
dot, or the whole string when it has no dot. -/
def extract_local_name (r : String) : String :=
  match r.data.findIdx? (fun c => c = '.') with
  | none => r
  | some i => ⟨r.data.drop (i + 1)⟩

/-- `emit_undefined` from `src/symbol.rs`. -/
def emit_undefined (kind : SymbolKind) (reference path context : String) : Diagnostic :=
  let code :=
    match kind with
    | SymbolKind.Schema => "E_UNDEFINED_SCHEMA"
    | SymbolKind.Func => "E_UNDEFINED_FUNC"
    | SymbolKind.Mod => "E_UNDEFINED_MOD"
  { severity := "error"
    kind := code
    message := "Reference '" ++ reference ++ "' is undefined"
    location := path ++ ": " ++ context }

/-- `emit_ambiguous` from `src/symbol.rs`. -/
def emit_ambiguous (kind : SymbolKind) (reference : String) (ms : List SymbolEntry)
    (path context : String) : Diagnostic :=
  { severity := "warning"
    kind := "W_AMBIGUOUS_NAME"
    message := "Ambiguous " ++ kindTag kind ++ " reference '" ++ reference
      ++ "'; candidates: " ++ String.intercalate ", " (ms.map (fun e => e.fq_name))
    location := path ++ ": " ++ context }

/-- `lookup_in_package` from `src/symbol.rs`: all entries of the package
with the kind and local name; when a namespace is supplied and some entry
matches it exactly, only the exact matches are returned, otherwise the
whole package-wide list is returned. -/
def lookup_in_package (symbols : SymbolTable) (kind : SymbolKind) (package : String)
    (nspace : Option String) (local_name : String) : List SymbolEntry :=
  let ms := symbols.entries.filter
    (fun e => e.kind = kind ∧ e.package = package ∧ e.local_name = local_name)
  match nspace with
  | some ns =>
    let exact := ms.filter (fun e => e.nspace = some ns)
    if exact.isEmpty then ms else exact
  | none => ms

/-- `lookup_any_namespace` from `src/symbol.rs`. -/
def lookup_any_namespace (symbols : SymbolTable) (kind : SymbolKind)
    (local_name : String) : List SymbolEntry :=
  symbols.entries.filter (fun e => e.kind = kind ∧ e.local_name = local_name)

/-- `resolve_self_package` from `src/symbol.rs`: rule 2 of the resolver.
Returns whether the rule handled the reference, plus pushed diagnostics. -/
def resolve_self_package (symbols : SymbolTable) (kind : SymbolKind)
    (ctx : FileImportContext) (local_name reference path context : String) :
    Bool × List Diagnostic :=
  let ms := lookup_in_package symbols kind ctx.self_package ctx.nspace local_name
  match ms with
  | [] => (false, [])
  | [_] => (true, [])
  | _ => (true, [emit_ambiguous kind reference ms path context])

/-- Loop body of `resolve_import_packages` over the declared imports. -/
def importLoop (symbols : SymbolTable) (kind : SymbolKind)
    (local_name reference path context : String) (acc : List SymbolEntry) :
    List ImportEntry → Bool × List Diagnostic
  | [] =>
    match acc with
    | [] => (false, [])
    | [_] => (true, [])
    | _ => (true, [emit_ambiguous kind reference acc path context])
  | imp :: rest =>
    let found := lookup_in_package symbols kind imp.package none local_name
    match found with
    | [] => importLoop symbols kind local_name reference path context acc rest
    | [e] => importLoop symbols kind local_name reference path context (acc ++ [e]) rest
    | _ => (true, [emit_ambiguous kind reference found path context])

/-- `resolve_import_packages` from `src/symbol.rs`: rule 3 of the resolver. -/
def resolve_import_packages (symbols : SymbolTable) (kind : SymbolKind)
    (ctx : FileImportContext) (local_name reference path context : String) :
    Bool × List Diagnostic :=
  importLoop symbols kind local_name reference path context [] ctx.imports

/-- `resolve_package_reference` from `src/symbol.rs`: rule 1's lookup inside
the package the prefix resolved to.  Note the lookup passes no namespace. -/
def resolve_package_reference (symbols : SymbolTable) (kind : SymbolKind)
    (package local_name reference path context : String) : List Diagnostic :=
  let ms := lookup_in_package symbols kind package none local_name
  match ms with
  | [] => [emit_undefined kind reference path context]
  | [_] => []
  | _ => [emit_ambiguous kind reference ms path context]

/-- `resolve_global_reference` from `src/symbol.rs`: rule 4. -/
def resolve_global_reference (symbols : SymbolTable) (kind : SymbolKind)
    (local_name reference path context : String) : List Diagnostic :=
  let ms := lookup_any_namespace symbols kind local_name
  match ms with
  | [] => [emit_undefined kind reference path context]
  | [_] => []
  | _ => [emit_ambiguous kind reference ms path context]

/-- `resolve_prefix` from `src/symbol.rs`: map a reference prefix to a
package (self package, own namespace, import alias or import package). -/
def resolve_pkg_of_pfx (pfx : String) (ctx : FileImportContext) : Option String :=
  if pfx = ctx.self_package then some pfx
  else if ctx.nspace = some pfx then some ctx.self_package
  else
    (ctx.imports.find? (fun imp => imp.«alias» = some pfx ∨ pfx = imp.package)).map
      (fun imp => imp.package)

/-- `str::trim` (ASCII whitespace suffices for the references handled
here), implemented on the character lists so that proofs can evaluate it. -/
def trimStr (s : String) : String :=
  ⟨((s.data.dropWhile Char.isWhitespace).reverse.dropWhile Char.isWhitespace).reverse⟩

/-- Local name used by the non-prefixed arm of `resolve_reference`
(the `let local = ...` in `src/symbol.rs`). -/
def unprefixed_local (reference : String) : String :=
  match split_reference reference with
  | (some _, base) => extract_local_name base
  | (none, _) => extract_local_name reference

/-- The rule 2 → rule 3 → rule 4 cascade of `resolve_reference`
(`src/symbol.rs`): each rule is tried in order and the first rule that
handles the reference supplies the diagnostics. -/
def resolve_unprefixed (symbols : SymbolTable) (kind : SymbolKind)
    (ctx : FileImportContext) (local_name reference path context : String) :
    List Diagnostic :=
  let r1 := resolve_self_package symbols kind ctx local_name reference path context
  if r1.1 then r1.2
  else
    let r2 := resolve_import_packages symbols kind ctx local_name reference path context
    if r2.1 then r2.2
    else resolve_global_reference symbols kind local_name reference path context

/-- `resolve_reference` from `src/symbol.rs`.  Empty references are
ignored; a dotted head that is not a kind tag is treated as a package
prefix (rule 1); otherwise rules 2-4 run in order. -/
def resolve_reference (symbols : SymbolTable) (kind : SymbolKind)
    (reference0 path : String) (ctx : FileImportContext) (context : String) :
    List Diagnostic :=
  if reference0 = "" then []
  else
    let reference := trimStr reference0
    match split_reference reference with
    | (some pfx, base) =>
      if pfx ≠ "schema" ∧ pfx ≠ "func" then
        match resolve_pkg_of_pfx pfx ctx with
        | none =>
          [{ severity := "error"
             kind := "E_UNDEFINED_PREFIX"
             message := "Unknown reference prefix '" ++ pfx ++ "'"
             location := path ++ ": " ++ context }]
        | some package =>
          resolve_package_reference symbols kind package (extract_local_name base)
            reference path context
      else resolve_unprefixed symbols kind ctx (unprefixed_local reference) reference path context
    | (none, _) =>
      resolve_unprefixed symbols kind ctx (unprefixed_local reference) reference path context

/- ===================== Project model (src/project.rs) ===================== -/

/-- `ModRef` from `src/project.rs`. -/
structure ModRef where
  id : String
  file : String
  name : String
deriving DecidableEq, Repr

/-- `ProjectAST` from `src/project.rs`: units plus the module index. -/
structure ProjectAST where
  files : List (String × SurvFile)
  mods : List (String × ModRef)
deriving DecidableEq, Repr

/-- `NormalizedRequire` from `src/project.rs`. -/
structure NormalizedRequire where
  from_mod : String
  to_mod : String
  raw : String
  file : String
deriving DecidableEq, Repr

/-- The `mod.<name>` ids of the modules a unit declares (the
`mods_in_file` collection in `collect_normalized_requires`). -/
def mods_in_file (file : SurvFile) : List String :=
  file.sections.filterMap
    (fun s =>
      match s with
      | Section.Mod m => some ("mod." ++ m.name)
      | _ => none)

/-- `ProjectAST::from_files` from `src/project.rs`. -/
def ProjectAST.from_files (files : List (String × SurvFile)) : ProjectAST :=
  let mods := files.foldl
    (fun acc pf =>
      pf.2.sections.foldl
        (fun acc s =>
          match s with
          | Section.Mod m =>
            let id := "mod." ++ m.name
            insertAssoc acc id { id := id, file := pf.1, name := m.name }
          | _ => acc)
        acc)
    []
  { files := files, mods := mods }

/-- The `seen`-set retention in `collect_normalized_requires`: keep an edge
only the first time its `(from_mod, to_mod)` pair appears. -/
def retainFirstPairs (seen : List (String × String)) :
    List NormalizedRequire → List NormalizedRequire
  | [] => []
  | e :: rest =>
    if (e.from_mod, e.to_mod) ∈ seen then retainFirstPairs seen rest
    else e :: retainFirstPairs ((e.from_mod, e.to_mod) :: seen) rest

/-- `ProjectAST::collect_normalized_requires` from `src/project.rs`: every
module of a unit gets an edge to every require target the unit lists, then
duplicate `(from, to)` pairs are dropped project-wide (first seen kept). -/
def ProjectAST.collect_normalized_requires (p : ProjectAST) : List NormalizedRequire :=
  let deps := p.files.flatMap
    (fun pf =>
      let mods := mods_in_file pf.2
      if mods.isEmpty then []
      else
        pf.2.requires.flatMap
          (fun req =>
            mods.map
              (fun fm =>
                { from_mod := fm, to_mod := req.target, raw := req.target, file := pf.1 })))
  retainFirstPairs [] deps

/- ================= Project checker (src/project_checker.rs) ================= -/

/-- Three-color DFS marking, shared by the project and deploy checkers. -/
inductive Color where
  | White
  | Gray
  | Black
deriving DecidableEq, Repr

/-- `graph.entry(k).or_default()`: make sure a node exists in the graph. -/
def ensureKey (g : List (String × List String)) (k : String) : List (String × List String) :=
  if containsKeyA g k then g else g ++ [(k, [])]

/-- Append a successor to a node's adjacency list. -/
def appendAt : List (String × List String) → String → String → List (String × List String)
  | [], _, _ => []
  | (k0, vs) :: rest, k, v =>
    if k0 = k then (k0, vs ++ [v]) :: rest else (k0, vs) :: appendAt rest k v

/-- The require graph of `ProjectChecker::check_cycles`: one node per
mentioned module, one edge `from_mod → to_mod` per normalized require. -/
def buildRequireGraph (normalized : List NormalizedRequire) : List (String × List String) :=
  normalized.foldl
    (fun g e => appendAt (ensureKey (ensureKey g e.from_mod) e.to_mod) e.from_mod e.to_mod)
    []

/-- State of the project checker's DFS: the color map, the gray stack and
the cycles recorded so far. -/
structure DfsSt where
  color : List (String × Color)
  stack : List String
  cycles : List (List String)
deriving DecidableEq, Repr

/-- The `dfs` helper of `ProjectChecker::check_cycles`: mark gray, push,
walk neighbors (recording `stack[pos..]` whenever a gray node is met),
mark black, pop.  `fuel` bounds the recursion depth; callers pass more
fuel than there are nodes, so it never runs out. -/
def projectDfs (graph : List (String × List String)) :
    Nat → String → DfsSt → DfsSt
  | 0, _, st => st
  | Nat.succ fuel, node, st =>
    let st1 : DfsSt :=
      { color := insertAssoc st.color node Color.Gray
        stack := st.stack ++ [node]
        cycles := st.cycles }
    let nbrs := (getAssoc graph node).getD []
    let st2 := nbrs.foldl
      (fun acc n =>
        match (getAssoc acc.color n).getD Color.White with
        | Color.White => projectDfs graph fuel n acc
        | Color.Gray =>
          match acc.stack.findIdx? (fun s => s == n) with
          | some pos => { acc with cycles := acc.cycles ++ [acc.stack.drop pos] }
          | none => acc
        | Color.Black => acc)
      st1
    { color := insertAssoc st2.color node Color.Black
      stack := st2.stack.dropLast
      cycles := st2.cycles }

/-- `ProjectChecker::check_requires`: every normalized edge must point at a
declared module. -/
def project_check_requires (p : ProjectAST) (normalized : List NormalizedRequire) :
    List Diagnostic :=
  normalized.filterMap
    (fun edge =>
      if containsKeyA p.mods edge.to_mod then none
      else some
        { severity := "error"
          kind := "UnresolvedRequire"
          message := "Module '" ++ edge.to_mod ++ "' (required from '" ++ edge.from_mod
            ++ "') does not exist"
          location := edge.file })

/-- First file found along consecutive pairs of the rendered cycle path
(the `path.windows(2) ... .next()` location computation). -/
def windowPairs : List String → List (String × String)
  | a :: b :: rest => (a, b) :: windowPairs (b :: rest)
  | _ => []

/-- `ProjectChecker::check_cycles`: run the DFS from every still-white node
(colors persist across roots, the stack is reset per root), then render
each recorded cycle of length ≥ 2 as one `RequireCycle` diagnostic. -/
def project_check_cycles (normalized : List NormalizedRequire) : List Diagnostic :=
  let graph := buildRequireGraph normalized
  let edge_map := normalized.foldl
    (fun m e => insertAssoc m (e.from_mod, e.to_mod) e) []
  let keys := graph.map (fun kv => kv.1)
  let init : DfsSt := { color := keys.map (fun k => (k, Color.White)), stack := [], cycles := [] }
  let final := keys.foldl
    (fun st k =>
      if (getAssoc st.color k).getD Color.White = Color.White then
        projectDfs graph (keys.length + 1) k { st with stack := [] }
      else st)
    init
  final.cycles.filterMap
    (fun cycle =>
      if cycle.length ≥ 2 then
        let path := cycle ++ [cycle.headD ""]
        let file :=
          ((windowPairs path).findSome? (fun pr => (getAssoc edge_map pr).map (fun e => e.file))).getD
            "require graph"
        some
          { severity := "error"
            kind := "RequireCycle"
            message := "Require cycle detected: " ++ String.intercalate " -> " path
            location := file }
      else none)

/-- `check_project` from `src/project_checker.rs`: unresolved requires then
cycle detection, over the normalized require edges. -/
def check_project (p : ProjectAST) : List Diagnostic :=
  let normalized := p.collect_normalized_requires
  project_check_requires p normalized ++ project_check_cycles normalized

/- ===================== Unit checker (src/checker.rs) ===================== -/

/-- `schema_id` from `src/checker.rs`. -/
def schema_id (s : SchemaSection) : String := "schema." ++ s.name

/-- `func_id` from `src/checker.rs`. -/
def func_id (f : FuncSection) : String := "func." ++ f.name

/-- `mod_id` from `src/checker.rs`. -/
def mod_id (m : ModSection) : String := "mod." ++ m.name

/-- `FileIndex` from `src/checker.rs`: per-unit maps from section id to
section (later sections overwrite earlier ones with the same id). -/
structure FileIndex where
  schemas : List (String × SchemaSection)
  funcs : List (String × FuncSection)
  mods : List (String × ModSection)
deriving DecidableEq, Repr

/-- `FileIndex::new` from `src/checker.rs`. -/
def FileIndex.new (file : SurvFile) : FileIndex :=
  file.sections.foldl
    (fun idx s =>
      match s with
      | Section.Schema sc => { idx with schemas := insertAssoc idx.schemas (schema_id sc) sc }
      | Section.Func f => { idx with funcs := insertAssoc idx.funcs (func_id f) f }
      | Section.Mod m => { idx with mods := insertAssoc idx.mods (mod_id m) m }
      | Section.Meta _ => idx
      | Section.Status _ => idx)
    { schemas := [], funcs := [], mods := [] }

/-- `check_func_schemas` from `src/checker.rs`. -/
def check_func_schemas (index : FileIndex) : List Diagnostic :=
  index.funcs.flatMap
    (fun kv =>
      let func := kv.2
      func.input.filterMap
        (fun schema =>
          if containsKeyA index.schemas schema then none
          else some
            { severity := "error"
              kind := "UndefinedSchema"
              message := "func " ++ func_id func ++ ": input schema " ++ schema
                ++ " is not defined"
              location := func_id func ++ ".input(" ++ schema ++ ")" })
      ++ func.output.filterMap
        (fun schema =>
          if containsKeyA index.schemas schema then none
          else some
            { severity := "error"
              kind := "UndefinedSchema"
              message := "func " ++ func_id func ++ ": output schema " ++ schema
                ++ " is not defined"
              location := func_id func ++ ".output(" ++ schema ++ ")" }))

/-- `check_mod_references` from `src/checker.rs`. -/
def check_mod_references (index : FileIndex) : List Diagnostic :=
  index.mods.flatMap
    (fun kv =>
      let module := kv.2
      module.schemas.filterMap
        (fun schema =>
          if containsKeyA index.schemas schema then none
          else some
            { severity := "error"
              kind := "UndefinedSchemaInMod"
              message := "mod " ++ mod_id module ++ ": schema " ++ schema ++ " is not defined"
              location := mod_id module ++ ".schemas(" ++ schema ++ ")" })
      ++ module.funcs.filterMap
        (fun func =>
          if containsKeyA index.funcs func then none
          else some
            { severity := "error"
              kind := "UndefinedFuncInMod"
              message := "mod " ++ mod_id module ++ ": func " ++ func ++ " is not defined"
              location := mod_id module ++ ".funcs(" ++ func ++ ")" })
      ++ module.pipeline.filterMap
        (fun step =>
          if containsKeyA index.funcs step then none
          else some
            { severity := "error"
              kind := "UndefinedFuncInPipeline"
              message := "mod " ++ mod_id module ++ ": pipeline step " ++ step
                ++ " is not defined"
              location := mod_id module ++ ".pipeline(" ++ step ++ ")" }))

/-- `check_schema_links` from `src/checker.rs`. -/
def check_schema_links (index : FileIndex) : List Diagnostic :=
  index.schemas.flatMap
    (fun kv =>
      let schema := kv.2
      if schema.kind = "edge" then
        (if schema.«from» ≠ "" ∧ ¬ containsKeyA index.schemas schema.«from» then
          [{ severity := "error"
             kind := "UndefinedSchemaInEdgeFrom"
             message := "schema " ++ schema_id schema ++ ": edge.from " ++ schema.«from»
               ++ " is not defined"
             location := schema_id schema ++ ".from(" ++ schema.«from» ++ ")" }]
        else [])
        ++ (if schema.«to» ≠ "" ∧ ¬ containsKeyA index.schemas schema.«to» then
          [{ severity := "error"
             kind := "UndefinedSchemaInEdgeTo"
             message := "schema " ++ schema_id schema ++ ": edge.to " ++ schema.«to»
               ++ " is not defined"
             location := schema_id schema ++ ".to(" ++ schema.«to» ++ ")" }]
        else [])
      else if schema.kind = "boundary" then
        schema.over.filterMap
          (fun ov =>
            if containsKeyA index.schemas ov then none
            else some
              { severity := "error"
                kind := "UndefinedSchemaInBoundary"
                message := "schema " ++ schema_id schema ++ ": boundary.over " ++ ov
                  ++ " is not defined"
                location := schema_id schema ++ ".over(" ++ ov ++ ")" })
      else [])

/-- `has_common_schema` from `src/checker.rs` (empty lists never share). -/
def has_common_schema (a b : List String) : Bool :=
  if a.isEmpty || b.isEmpty then false
  else b.any (fun schema => a.contains schema)

/-- The `PipelineCycle` diagnostic of `check_pipeline_semantics`. -/
def pipeline_cycle_diag (module : ModSection) (step : String) : Diagnostic :=
  { severity := "error"
    kind := "PipelineCycle"
    message := "mod " ++ mod_id module ++ ": pipeline has a cycle involving " ++ step
      ++ " (appears multiple times)"
    location := mod_id module ++ ".pipeline" }

/-- The repeated-step scan of `check_pipeline_semantics`: walking the
pipeline with a seen-set, a step already seen yields a `PipelineCycle`
diagnostic naming it. -/
def pipeCycleLoop (module : ModSection) (seen : List String) :
    List String → List Diagnostic
  | [] => []
  | step :: rest =>
    if step ∈ seen then
      pipeline_cycle_diag module step :: pipeCycleLoop module seen rest
    else pipeCycleLoop module (step :: seen) rest

/-- The adjacent-pair flow scan of `check_pipeline_semantics`. -/
def pipeFlowDiags (index : FileIndex) (module : ModSection) : List Diagnostic :=
  (windowPairs module.pipeline).filterMap
    (fun pr =>
      match getAssoc index.funcs pr.1, getAssoc index.funcs pr.2 with
      | some func1, some func2 =>
        if ¬ has_common_schema func1.output func2.input then
          some
            { severity := "warning"
              kind := "PipelineTypeMismatch"
              message := "mod " ++ mod_id module ++ ": pipeline step " ++ pr.1 ++ " -> "
                ++ pr.2 ++ " has no shared schema between output and input"
              location := mod_id module ++ ".pipeline(" ++ pr.1 ++ "->" ++ pr.2 ++ ")" }
        else none
      | _, _ => none)

/-- `check_pipeline_semantics` from `src/checker.rs`. -/
def check_pipeline_semantics (index : FileIndex) : List Diagnostic :=
  index.mods.flatMap
    (fun kv =>
      if kv.2.pipeline.isEmpty then []
      else pipeCycleLoop kv.2 [] kv.2.pipeline ++ pipeFlowDiags index kv.2)

/-- Insert-if-absent for the used-name sets of `check_unused_definitions`. -/
def addUsed (seen : List String) (s : String) : List String :=
  if s ∈ seen then seen else seen ++ [s]

/-- `check_unused_definitions` from `src/checker.rs`: schemas are used via
func inputs/outputs, module schema lists and any schema's from/to/over;
funcs are used via module func lists and pipelines. -/
def check_unused_definitions (index : FileIndex) : List Diagnostic :=
  let used_schemas :=
    index.schemas.foldl
      (fun seen kv =>
        let seen := if kv.2.«from» ≠ "" then addUsed seen kv.2.«from» else seen
        let seen := if kv.2.«to» ≠ "" then addUsed seen kv.2.«to» else seen
        kv.2.over.foldl addUsed seen)
      (index.mods.foldl
        (fun seen kv => kv.2.schemas.foldl addUsed seen)
        (index.funcs.foldl
          (fun seen kv => (kv.2.input ++ kv.2.output).foldl addUsed seen)
          []))
  let schemaDiags := index.schemas.filterMap
    (fun kv =>
      if kv.1 ∈ used_schemas then none
      else some
        { severity := "warning"
          kind := "UnusedSchema"
          message := "schema " ++ kv.1 ++ " is defined but never referenced"
          location := kv.1 })
  let used_funcs :=
    index.mods.foldl
      (fun seen kv => kv.2.pipeline.foldl addUsed (kv.2.funcs.foldl addUsed seen))
      []
  let funcDiags := index.funcs.filterMap
    (fun kv =>
      if kv.1 ∈ used_funcs then none
      else some
        { severity := "warning"
          kind := "UnusedFunc"
          message := "func " ++ kv.1 ++ " is defined but never referenced in any mod"
          location := kv.1 })
  schemaDiags ++ funcDiags

/-- `check_surv_file` from `src/checker.rs`: the five unit passes in order. -/
def check_surv_file (file : SurvFile) : List Diagnostic :=
  let index := FileIndex.new file
  check_func_schemas index ++ check_mod_references index ++ check_schema_links index
    ++ check_pipeline_semantics index ++ check_unused_definitions index

/- ===================== Deploy model (src/deploy/ast.rs) ===================== -/

/-- `Pipeline` from `src/deploy/ast.rs`. -/
structure DeployPipeline where
  name : String
  description : String
deriving DecidableEq, Repr

/-- `Target` from `src/deploy/ast.rs`. -/
structure Target where
  name : String
  kind : String
  domain : String
deriving DecidableEq, Repr

/-- `Job` from `src/deploy/ast.rs`. -/
structure Job where
  name : String
  requires : List String
  runs : List String
  uses_target : String
  needs_secrets : List String
  uses_perm : String
  produces : List String
  side_effects : List String
deriving DecidableEq, Repr

/-- `Artifact` from `src/deploy/ast.rs`. -/
structure Artifact where
  name : String
  artifact_type : String
  repo : String
  tag : String
deriving DecidableEq, Repr

/-- `Secret` from `src/deploy/ast.rs`. -/
structure Secret where
  name : String
  scope : List String
deriving DecidableEq, Repr

/-- `Permission` from `src/deploy/ast.rs`. -/
structure Permission where
  name : String
  role : String
  allows : List String
deriving DecidableEq, Repr

/-- `Release` from `src/deploy/ast.rs`. -/
structure Release where
  strategy : String
  health_check : String
deriving DecidableEq, Repr

/-- `Gate` from `src/deploy/ast.rs`. -/
structure Gate where
  require_manual_approval_for : List String
deriving DecidableEq, Repr

/-- `Rollback` from `src/deploy/ast.rs`. -/
structure Rollback where
  «on» : List String
  strategy : String
deriving DecidableEq, Repr

/-- `DeployFile` from `src/deploy/ast.rs` (the `BTreeMap`s become
association lists; the concrete files used below list keys in sorted
order, matching `BTreeMap` iteration). -/
structure DeployFile where
  pipeline : Option DeployPipeline
  targets : List (String × Target)
  jobs : List (String × Job)
  artifacts : List (String × Artifact)
  secrets : List (String × Secret)
  perms : List (String × Permission)
  release : Option Release
  gate : Option Gate
  rollback : Option Rollback
deriving DecidableEq, Repr

/- ================== Deploy checker (src/deploy/checker.rs) ================== -/

/-- The `uses_target` arm of `check_undefined_references`: an error when a
non-empty target reference (with any `target.` prefix stripped) names no
declared target. -/
def target_ref_diags (deploy : DeployFile) (job_name : String) (job : Job) :
    List Diagnostic :=
  if job.uses_target ≠ "" ∧
      ¬ containsKeyA deploy.targets (stripPfxOr "target." job.uses_target) then
    [{ severity := "error"
       kind := "UndefinedTargetReference"
       message := "Job '" ++ job_name ++ "' references undefined target '"
         ++ job.uses_target ++ "'"
       location := "deploy.job." ++ job_name ++ ".uses_target" }]
  else []

/-- `check_undefined_references` from `src/deploy/checker.rs`. -/
def check_undefined_references (deploy : DeployFile) : List Diagnostic :=
  deploy.jobs.flatMap
    (fun kv =>
      let job_name := kv.1
      let job := kv.2
      job.requires.filterMap
        (fun req =>
          if req ≠ "" ∧ ¬ containsKeyA deploy.jobs (stripPfxOr "job." req) then
            some
              { severity := "error"
                kind := "UndefinedJobReference"
                message := "Job '" ++ job_name ++ "' requires undefined job '" ++ req ++ "'"
                location := "deploy.job." ++ job_name ++ ".requires" }
          else none)
      ++ target_ref_diags deploy job_name job
      ++ job.needs_secrets.filterMap
        (fun secret =>
          if ¬ containsKeyA deploy.secrets (stripPfxOr "secret." secret) then
            some
              { severity := "error"
                kind := "UndefinedSecretReference"
                message := "Job '" ++ job_name ++ "' references undefined secret '"
                  ++ secret ++ "'"
                location := "deploy.job." ++ job_name ++ ".needs_secrets" }
          else none)
      ++ (if job.uses_perm ≠ "" ∧
            ¬ containsKeyA deploy.perms (stripPfxOr "perm." job.uses_perm) then
          [{ severity := "error"
             kind := "UndefinedPermReference"
             message := "Job '" ++ job_name ++ "' references undefined permission '"
               ++ job.uses_perm ++ "'"
             location := "deploy.job." ++ job_name ++ ".uses_perm" }]
        else [])
      ++ job.produces.filterMap
        (fun artifact =>
          if ¬ containsKeyA deploy.artifacts (stripPfxOr "artifact." artifact) then
            some
              { severity := "warning"
                kind := "UndefinedArtifactReference"
                message := "Job '" ++ job_name ++ "' produces undefined artifact '"
                  ++ artifact ++ "'"
                location := "deploy.job." ++ job_name ++ ".produces" }
          else none))

/-- `build_job_graph` from `src/deploy/checker.rs`: node per job, edge
`job → required job` per requires entry. -/
def build_job_graph (deploy : DeployFile) : List (String × List String) :=
  deploy.jobs.foldl
    (fun g kv =>
      kv.2.requires.foldl
        (fun g req =>
          let req_name := stripPfxOr "job." req
          appendAt (ensureKey g req_name) kv.1 req_name)
        (ensureKey g kv.1))
    []

/-- State of the deploy checker's `detect_cycle` DFS: the cycle found (if
any), the color map and the gray path.  On a found cycle the Rust function
returns early, leaving the path and colors as they were at that moment. -/
structure DcSt where
  found : Option (List String)
  color : List (String × Color)
  path : List String
deriving DecidableEq, Repr

/-- `detect_cycle` from `src/deploy/checker.rs`: mark gray, push, walk
neighbors returning the first cycle found (`path[pos..]` up to the gray
node); when none is found, mark black and pop.  `fuel` bounds recursion
depth and is always passed larger than the node count. -/
def detect_cycle (graph : List (String × List String)) :
    Nat → String → DcSt → DcSt
  | 0, _, st => st
  | Nat.succ fuel, node, st =>
    let st1 : DcSt :=
      { found := st.found
        color := insertAssoc st.color node Color.Gray
        path := st.path ++ [node] }
    let nbrs := (getAssoc graph node).getD []
    let st2 := nbrs.foldl
      (fun acc n =>
        if acc.found.isSome then acc
        else
          match (getAssoc acc.color n).getD Color.White with
          | Color.White => detect_cycle graph fuel n acc
          | Color.Gray =>
            match acc.path.findIdx? (fun s => s == n) with
            | some pos => { acc with found := some (acc.path.drop pos) }
            | none => acc
          | Color.Black => acc)
      st1
    match st2.found with
    | some _ => st2
    | none =>
      { found := none
        color := insertAssoc st2.color node Color.Black
        path := st2.path.dropLast }

/-- `check_dag_structure` from `src/deploy/checker.rs`: colors and the path
persist across roots; each root that uncovers a cycle contributes one
`DeployCycle` diagnostic. -/
def check_dag_structure (deploy : DeployFile) : List Diagnostic :=
  let graph := build_job_graph deploy
  let keys := graph.map (fun kv => kv.1)
  let init : List (String × Color) × List String × List Diagnostic :=
    (keys.map (fun k => (k, Color.White)), [], [])
  let result := keys.foldl
    (fun acc node =>
      if (getAssoc acc.1 node).getD Color.White = Color.White then
        let st := detect_cycle graph (keys.length + 1) node
          { found := none, color := acc.1, path := acc.2.1 }
        match st.found with
        | some cycle =>
          (st.color, st.path,
            acc.2.2 ++
              [{ severity := "error"
                 kind := "DeployCycle"
                 message := "Deploy DAG contains a cycle: "
                   ++ String.intercalate " -> " cycle ++ " -> " ++ cycle.headD ""
                 location := "deploy.job" }])
        | none => (st.color, st.path, acc.2.2)
      else acc)
    init
  result.2.2

/-- The BFS of `check_unreachable_jobs`: pop a job, record it if new, and
enqueue every job that requires it.  `fuel` bounds the number of pops and
is always passed larger than the possible number of queue entries. -/
def bfsReach (jobs : List (String × Job)) :
    Nat → List String → List String → List String
  | 0, reachable, _ => reachable
  | _, reachable, [] => reachable
  | Nat.succ fuel, reachable, j :: rest =>
    if j ∈ reachable then bfsReach jobs fuel reachable rest
    else
      let dependents :=
        (jobs.filter (fun kv => kv.2.requires.any (fun r => stripPfxOr "job." r == j))).map
          (fun kv => kv.1)
      bfsReach jobs fuel (reachable ++ [j]) (rest ++ dependents)

/-- `check_unreachable_jobs` from `src/deploy/checker.rs`: `NoEntryPoint`
when jobs exist but none has empty requires, else a BFS from the entry
points along is-required-by edges and an `UnreachableJob` warning per
unreached job. -/
def check_unreachable_jobs (deploy : DeployFile) : List Diagnostic :=
  if deploy.jobs.isEmpty then []
  else
    let entry_points := (deploy.jobs.filter (fun kv => kv.2.requires.isEmpty)).map
      (fun kv => kv.1)
    if entry_points.isEmpty then
      [{ severity := "error"
         kind := "NoEntryPoint"
         message := "No entry point jobs found (all jobs have dependencies)"
         location := "deploy.job" }]
    else
      let fuel := deploy.jobs.length * deploy.jobs.length + deploy.jobs.length + 1
      let reachable := bfsReach deploy.jobs fuel [] entry_points
      deploy.jobs.filterMap
        (fun kv =>
          if kv.1 ∈ reachable then none
          else some
            { severity := "warning"
              kind := "UnreachableJob"
              message := "Job '" ++ kv.1 ++ "' is unreachable (no path from any entry point)"
              location := "deploy.job." ++ kv.1 })

/-- `check_secret_scope` from `src/deploy/checker.rs`: a targeted job may
only use secrets whose scope (when non-empty) lists its target. -/
def check_secret_scope (deploy : DeployFile) : List Diagnostic :=
  deploy.jobs.flatMap
    (fun kv =>
      let job_name := kv.1
      let job := kv.2
      if job.uses_target = "" then []
      else
        let target_ref := "target." ++ stripPfxOr "target." job.uses_target
        job.needs_secrets.filterMap
          (fun secret_ref =>
            match getAssoc deploy.secrets (stripPfxOr "secret." secret_ref) with
            | some secret =>
              if ¬ secret.scope.isEmpty ∧ ¬ secret.scope.contains target_ref then
                some
                  { severity := "error"
                    kind := "SecretScopeViolation"
                    message := "Job '" ++ job_name ++ "' uses secret '" ++ secret_ref
                      ++ "' which is not scoped for target '" ++ job.uses_target ++ "'"
                    location := "deploy.job." ++ job_name ++ ".needs_secrets" }
              else none
            | none => none))

/-- The per-job production test of `check_prod_safety`: the job counts as a
production job only when its `uses_target` carries the `target.` prefix and
the stripped name resolves to a target of kind `production` or `prod`. -/
def job_is_prod (deploy : DeployFile) (job : Job) : Bool :=
  match stripPfxOpt "target." job.uses_target with
  | none => false
  | some t =>
    match getAssoc deploy.targets t with
    | none => false
    | some target => target.kind == "production" || target.kind == "prod"

/-- `has_prod_jobs` in `check_prod_safety`. -/
def has_prod_jobs (deploy : DeployFile) : Bool :=
  deploy.jobs.any (fun kv => job_is_prod deploy kv.2)

/-- The approval-list check of `check_prod_safety` for one job (only
reached when a gate section exists). -/
def prod_approval_diags_for (gate : Gate) (deploy : DeployFile) (job_name : String)
    (job : Job) : List Diagnostic :=
  match stripPfxOpt "target." job.uses_target with
  | none => []
  | some target_name =>
    match getAssoc deploy.targets target_name with
    | none => []
    | some target =>
      if target.kind = "production" ∨ target.kind = "prod" then
        let target_ref := "target." ++ target_name
        if ¬ gate.require_manual_approval_for.contains target_ref then
          [{ severity := "error"
             kind := "ProdJobWithoutApproval"
             message := "Production job '" ++ job_name ++ "' target '" ++ target_ref
               ++ "' not in gate approval list"
             location := "deploy.gate.require_manual_approval_for" }]
        else []
      else []

/-- The `MissingHealthCheck` diagnostic of `check_prod_safety`. -/
def missing_health_check_diag (strategy : String) : Diagnostic :=
  { severity := "error"
    kind := "MissingHealthCheck"
    message := "Release strategy '" ++ strategy ++ "' requires health_check"
    location := "deploy.release" }

/-- `check_prod_safety` from `src/deploy/checker.rs`: gate/rollback/health
checks run only when some job targets production; the per-job approval
check runs whenever a gate exists. -/
def check_prod_safety (deploy : DeployFile) : List Diagnostic :=
  (if has_prod_jobs deploy then
    (if deploy.gate.isNone then
      [{ severity := "error"
         kind := "MissingProdGate"
         message := "Production jobs require [deploy.gate] section"
         location := "deploy" }]
    else [])
    ++ (if deploy.rollback.isNone then
      [{ severity := "error"
         kind := "MissingProdRollback"
         message := "Production jobs require [deploy.rollback] section"
         location := "deploy" }]
    else [])
    ++ (match deploy.release with
      | some release =>
        if (release.strategy = "canary" ∨ release.strategy = "blue_green") ∧
            release.health_check = "" then
          [missing_health_check_diag release.strategy]
        else []
      | none => [])
  else [])
  ++ (match deploy.gate with
    | some gate => deploy.jobs.flatMap (fun kv => prod_approval_diags_for gate deploy kv.1 kv.2)
    | none => [])

/-- The per-job body of `check_side_effects_safety` (only reached when a
gate exists).  A `db_migration` job without a target yields only the
target error (the Rust loop `continue`s); with a target it may yield the
approval error and then the release-strategy warning is also evaluated. -/
def side_effect_job_diags (gate : Gate) (deploy : DeployFile) (job_name : String)
    (job : Job) : List Diagnostic :=
  let releaseDiags :=
    if job.side_effects.contains "release" ∧ deploy.release.isNone then
      [{ severity := "warning"
         kind := "ReleaseWithoutStrategy"
         message := "Job '" ++ job_name ++ "' has release side effect but no [deploy.release] defined"
         location := "deploy.job." ++ job_name ++ ".side_effects" }]
    else []
  if job.side_effects.contains "db_migration" then
    if job.uses_target = "" then
      [{ severity := "error"
         kind := "DbMigrationWithoutTarget"
         message := "Job '" ++ job_name ++ "' with db_migration side effect must specify uses_target"
         location := "deploy.job." ++ job_name }]
    else
      (let target_ref := "target." ++ stripPfxOr "target." job.uses_target
      if ¬ gate.require_manual_approval_for.contains target_ref then
        [{ severity := "error"
           kind := "DbMigrationWithoutApproval"
           message := "Job '" ++ job_name ++ "' has db_migration side effect but target '"
             ++ target_ref ++ "' not in approval list"
           location := "deploy.job." ++ job_name ++ ".side_effects" }]
      else []) ++ releaseDiags
  else releaseDiags

/-- `check_side_effects_safety` from `src/deploy/checker.rs`: the whole
pass is skipped when no gate section exists. -/
def check_side_effects_safety (deploy : DeployFile) : List Diagnostic :=
  match deploy.gate with
  | none => []
  | some gate =>
    deploy.jobs.flatMap (fun kv => side_effect_job_diags gate deploy kv.1 kv.2)

/-- `check_deploy_file` from `src/deploy/checker.rs`: the six passes in
order. -/
def check_deploy_file (deploy : DeployFile) : List Diagnostic :=
  check_undefined_references deploy ++ check_dag_structure deploy
    ++ check_unreachable_jobs deploy ++ check_secret_scope deploy
    ++ check_prod_safety deploy ++ check_side_effects_safety deploy

/- ===================== Concrete instances used in the theorems ===================== -/

/-- A deploy job with the given name and all other fields empty. -/
def mkJob (name : String) : Job := ⟨name, [], [], "", [], "", [], []⟩

/-- Jobs of the gate-less production scenario: `build` with no requires. -/
def buildJob : Job := ⟨"build", [], ["npm build"], "", [], "", [], []⟩

/-- Jobs of the gate-less production scenario: `deploy` requiring
`job.build`, targeting `target.prod`, with a `db_migration` side effect. -/
def deployJob : Job :=
  ⟨"deploy", ["job.build"], ["kubectl apply"], "target.prod", [], "", [], ["db_migration"]⟩

/-- Deploy unit with jobs `build` and `deploy`, a `production` target
`prod`, and no gate, rollback or release section. -/
def c5deploy : DeployFile :=
  ⟨none, [("prod", ⟨"prod", "production", ""⟩)],
    [("build", buildJob), ("deploy", deployJob)],
    [], [], [], none, none, none⟩

/-- Deploy unit declaring a `canary` release with an empty health check,
whose only job targets a `staging` (non-production) target. -/
def c6deploy : DeployFile :=
  ⟨none, [("staging", ⟨"staging", "staging", ""⟩)],
    [("deploy", ⟨"deploy", [], [], "target.staging", [], "", [], []⟩)],
    [], [], [], some ⟨"canary", ""⟩, none, none⟩

/-- Deploy unit with a `production` target `prod` and a gate listing it,
used to witness the amended health-check rule. -/
def c6deployProd : DeployFile :=
  ⟨none, [("prod", ⟨"prod", "production", ""⟩)],
    [("deploy", ⟨"deploy", [], [], "target.prod", [], "", [], []⟩)],
    [], [], [], some ⟨"canary", ""⟩, some ⟨["target.prod"]⟩, some ⟨["fail"], "revert"⟩⟩

/-- Deploy unit whose job names its production target without the
`target.` prefix (`uses_target = "prod"`). -/
def c10deploy : DeployFile :=
  ⟨none, [("prod", ⟨"prod", "production", ""⟩)],
    [("deploy", ⟨"deploy", [], [], "prod", [], "", [], []⟩)],
    [], [], [], none, none, none⟩

/-- Symbol table where the local name `user` is declared both in package
`p` (the self package) and in package `q` (an imported package). -/
def c1sym : SymbolTable :=
  ⟨[make_entry SymbolKind.Schema "p" none "user" "f1.toml",
    make_entry SymbolKind.Schema "q" none "user" "g.toml"]⟩

/-- Context whose self package is `p`, importing `q`. -/
def c1ctx : FileImportContext := ⟨"f.toml", "p", none, [⟨"q", none⟩]⟩

/-- Symbol table where package `p` declares `user` in namespaces `n1` and
`n2` (neither is the context namespace) and package `q` declares one
`user`. -/
def c2sym : SymbolTable :=
  ⟨[make_entry SymbolKind.Schema "p" (some "n1") "user" "f1.toml",
    make_entry SymbolKind.Schema "p" (some "n2") "user" "f2.toml",
    make_entry SymbolKind.Schema "q" none "user" "g.toml"]⟩

/-- Context in namespace `ns` of package `p`, importing `q`. -/
def c2ctx : FileImportContext := ⟨"f.toml", "p", some "ns", [⟨"q", none⟩]⟩

/-- Symbol table where package `p` declares `user` both in namespace `ns`
(the context namespace) and in namespace `other`. -/
def c3sym : SymbolTable :=
  ⟨[make_entry SymbolKind.Schema "p" (some "ns") "user" "f1.toml",
    make_entry SymbolKind.Schema "p" (some "other") "user" "f2.toml"]⟩

/-- Context in namespace `ns` of package `p`, with no imports. -/
def c3ctx : FileImportContext := ⟨"f.toml", "p", some "ns", []⟩

/-- A schema section with the given name (remaining fields inert). -/
def mkSchema (name : String) : SchemaSection :=
  ⟨name, "node", "", "User", "", "", "", "", [], []⟩

/-- A unit declaring exactly one module `name` and requiring `req`. -/
def modUnit (name req : String) : SurvFile :=
  ⟨none, none, [], [⟨req⟩], [Section.Mod ⟨name, "", [], [], []⟩]⟩

/-- Single unit listing the same require target twice for its one module. -/
def c8file : SurvFile :=
  ⟨none, none, [], [⟨"mod.shared"⟩, ⟨"mod.shared"⟩], [Section.Mod ⟨"alpha", "", [], [], []⟩]⟩

/-- Spec unit whose module `api` repeats `func.step_a` in its pipeline. -/
def pipeFile : SurvFile :=
  ⟨none, none, [], [],
    [Section.Schema (mkSchema "user"),
     Section.Func ⟨"step_a", "t", ["schema.user"], ["schema.user"]⟩,
     Section.Func ⟨"step_b", "t", ["schema.user"], ["schema.user"]⟩,
     Section.Mod ⟨"api", "t", ["schema.user"], ["func.step_a", "func.step_b"],
       ["func.step_a", "func.step_b", "func.step_a"]⟩]⟩

/- ===================== Claim theorems ===================== -/

/-- C5: for the deploy unit with jobs `build` (no requires) and `deploy`
(requires `job.build`, uses_target `target.prod`, side effect
`db_migration`), a `production` target `prod` and no gate section, the
deploy checker emits exactly `MissingProdGate` and `MissingProdRollback`;
in particular neither `DbMigrationWithoutTarget` nor
`DbMigrationWithoutApproval` appears, the side-effect pass being skipped
without a gate. -/
theorem C5_end_to_end :
    check_deploy_file c5deploy =
      [{ severity := "error", kind := "MissingProdGate",
         message := "Production jobs require [deploy.gate] section", location := "deploy" },
       { severity := "error", kind := "MissingProdRollback",
         message := "Production jobs require [deploy.rollback] section", location := "deploy" }] := by
  decide

/-- C7: three units declaring `mod.a requires mod.b`, `mod.b requires
mod.c`, `mod.c requires mod.a` yield exactly one `RequireCycle` error
whose rendered path starts at one of the three modules, walks the cycle
and returns to the start. -/
theorem C7_module_cycle :
    check_project (ProjectAST.from_files
      [("a.toml", modUnit "a" "mod.b"), ("b.toml", modUnit "b" "mod.c"),
       ("c.toml", modUnit "c" "mod.a")]) =
      [{ severity := "error", kind := "RequireCycle",
         message := "Require cycle detected: mod.a -> mod.b -> mod.c -> mod.a",
         location := "a.toml" }] := by
  decide

/-- C4: two units that declare a schema with the same local name under the
same package and namespace produce exactly one `W_AMBIGUOUS_NAME`
diagnostic, whose message names both source units, and the table still
holds both entries in first-seen order. -/
theorem C4_duplicate_tolerance (p1 p2 pkg : String) (ns : Option String)
    (s1 s2 : SchemaSection) (hname : s2.name = s1.name) :
    build_symbol_table_with_packages
        [(p1, ⟨some pkg, ns, [], [], [Section.Schema s1]⟩),
         (p2, ⟨some pkg, ns, [], [], [Section.Schema s2]⟩)]
        (fun _ => none) =
      (⟨[make_entry SymbolKind.Schema pkg ns s1.name p1,
         make_entry SymbolKind.Schema pkg ns s2.name p2]⟩,
       [{ severity := "warning", kind := "W_AMBIGUOUS_NAME",
          message := "Symbol '" ++ build_fq_name SymbolKind.Schema pkg ns s2.name
            ++ "' is defined in both " ++ p1 ++ " and " ++ p2,
          location := p2 }]) := by
  simp [build_symbol_table_with_packages, buildFiles, buildSections, sectionEntry,
    report_duplicates, make_entry, getAssoc, insertAssoc, hname]

/-- Witness for C4 at a concrete pair of units declaring `schema.user`. -/
theorem C4_witness :
    (mkSchema "user").name = (mkSchema "user").name ∧
    build_symbol_table_with_packages
        [("a.toml", ⟨some "default", none, [], [], [Section.Schema (mkSchema "user")]⟩),
         ("b.toml", ⟨some "default", none, [], [], [Section.Schema (mkSchema "user")]⟩)]
        (fun _ => none) =
      (⟨[make_entry SymbolKind.Schema "default" none "user" "a.toml",
         make_entry SymbolKind.Schema "default" none "user" "b.toml"]⟩,
       [{ severity := "warning", kind := "W_AMBIGUOUS_NAME",
          message := "Symbol '" ++ build_fq_name SymbolKind.Schema "default" none "user"
            ++ "' is defined in both " ++ "a.toml" ++ " and " ++ "b.toml",
          location := "b.toml" }]) :=
  ⟨rfl, C4_duplicate_tolerance "a.toml" "b.toml" "default" none (mkSchema "user")
    (mkSchema "user") rfl⟩

/-- C2 counterexample: the self package `p` declares `user` only in
namespaces `n1` and `n2`, neither of which is the context namespace `ns`,
and the imported package `q` declares exactly one `user`.  The claim
predicts that rule 2 yields nothing and the reference resolves silently
through the import; the code instead falls back to all self-package
entries and reports them as ambiguous. -/
theorem C2_counterexample :
    (c2sym.entries.filter
        (fun e => e.kind = SymbolKind.Schema ∧ e.package = c2ctx.self_package ∧
          e.local_name = "user") ≠ [] ∧
      (c2sym.entries.filter
          (fun e => e.kind = SymbolKind.Schema ∧ e.package = c2ctx.self_package ∧
            e.local_name = "user")).all (fun e => e.nspace ≠ c2ctx.nspace) = true) ∧
    resolve_reference c2sym SymbolKind.Schema "schema.user" "f.toml" c2ctx "ctxt" =
      [{ severity := "warning", kind := "W_AMBIGUOUS_NAME",
         message := "Ambiguous schema reference 'schema.user'; candidates: pkg.p.schema.n1.user, pkg.p.schema.n2.user",
         location := "f.toml: ctxt" }] := by
  decide

/-- C3 counterexample: the context namespace is `ns` and package `p`
declares `user` both in `ns` and in `other`.  The claim predicts the
prefixed reference `p.user` resolves to the `ns` entry with no diagnostic;
the code looks the name up with no namespace preference and reports both
entries as ambiguous. -/
theorem C3_counterexample :
    (c3ctx.nspace = some "ns" ∧
      (∃ e ∈ c3sym.entries, e.package = "p" ∧ e.nspace = some "ns" ∧
        e.local_name = "user")) ∧
    resolve_reference c3sym SymbolKind.Schema "p.user" "f.toml" c3ctx "ctxt" =
      [{ severity := "warning", kind := "W_AMBIGUOUS_NAME",
         message := "Ambiguous schema reference 'p.user'; candidates: pkg.p.schema.ns.user, pkg.p.schema.other.user",
         location := "f.toml: ctxt" }] := by
  decide

/-- C6 counterexample: a deploy unit declaring a `canary` release with an
empty health check but no production-targeting job produces no diagnostic
at all — in particular no `MissingHealthCheck` — because the health-check
rule only runs when some job targets production. -/
theorem C6_counterexample :
    c6deploy.release = some ⟨"canary", ""⟩ ∧
    check_deploy_file c6deploy = [] := by
  decide

/-- C8 counterexample: a unit with one module and the same require target
listed twice (N = 1, M = 2) yields one normalized edge, not N×M = 2,
because duplicate `(module, target)` pairs are dropped. -/
theorem C8_counterexample :
    ((ProjectAST.from_files [("a.toml", c8file)]).collect_normalized_requires).length = 1 ∧
    ((ProjectAST.from_files [("a.toml", c8file)]).collect_normalized_requires).length ≠ 1 * 2 := by
  decide

/-- C10: a job whose `uses_target` lacks the `target.` prefix but names a
declared target passes reference validation (the prefix is stripped only
when present), yet is never counted as a production job — it contributes
nothing to `has_prod_jobs` (which gates `MissingProdGate` and
`MissingProdRollback`) and the approval check emits nothing for it, since
both require the `target.` prefix to look up the target kind. -/
theorem C10_unprefixed_target (deploy : DeployFile) (g : Gate) (job_name : String)
    (job : Job)
    (hne : job.uses_target ≠ "")
    (hpfx : stripPfxOpt "target." job.uses_target = none)
    (hin : containsKeyA deploy.targets job.uses_target = true) :
    target_ref_diags deploy job_name job = [] ∧
    job_is_prod deploy job = false ∧
    prod_approval_diags_for g deploy job_name job = [] := by
  refine ⟨?_, ?_, ?_⟩
  · simp [target_ref_diags, stripPfxOr, hpfx, hin]
  · simp [job_is_prod, hpfx]
  · simp [prod_approval_diags_for, hpfx]

/-- Witness for C10: the deploy unit whose job says `uses_target = "prod"`
for the declared production target `prod`; additionally the full checker
emits no diagnostic at all for it. -/
theorem C10_witness :
    ((c10deploy.jobs.headD ("", mkJob "")).2.uses_target ≠ "" ∧
      stripPfxOpt "target." (c10deploy.jobs.headD ("", mkJob "")).2.uses_target = none ∧
      containsKeyA c10deploy.targets (c10deploy.jobs.headD ("", mkJob "")).2.uses_target = true) ∧
    (target_ref_diags c10deploy "deploy" (c10deploy.jobs.headD ("", mkJob "")).2 = [] ∧
      job_is_prod c10deploy (c10deploy.jobs.headD ("", mkJob "")).2 = false ∧
      prod_approval_diags_for ⟨[]⟩ c10deploy "deploy" (c10deploy.jobs.headD ("", mkJob "")).2 = []) ∧
    check_deploy_file c10deploy = [] :=
  ⟨⟨by decide, by decide, by decide⟩,
    C10_unprefixed_target c10deploy ⟨[]⟩ "deploy" (c10deploy.jobs.headD ("", mkJob "")).2
      (by decide) (by decide) (by decide),
    by decide⟩

/-- C1: an unprefixed reference (or one headed by a kind tag) whose local
name has exactly one match in the self package under the context namespace
resolves there with no diagnostic — in particular no `W_AMBIGUOUS_NAME` —
even when imported packages also declare the name, and the outcome does
not depend on the imports at all. -/
theorem C1_self_package_wins (symbols : SymbolTable) (kind : SymbolKind)
    (reference path context : String) (ctx : FileImportContext) (e : SymbolEntry)
    (hne : reference ≠ "")
    (htrim : trimStr reference = reference)
    (hpfx : (split_reference reference).1 = none ∨
      (split_reference reference).1 = some "schema" ∨
      (split_reference reference).1 = some "func")
    (hself : lookup_in_package symbols kind ctx.self_package ctx.nspace
      (unprefixed_local reference) = [e])
    (himp : ∃ imp ∈ ctx.imports,
      lookup_in_package symbols kind imp.package none (unprefixed_local reference) ≠ []) :
    resolve_reference symbols kind reference path ctx context = [] ∧
    (resolve_self_package symbols kind ctx (unprefixed_local reference)
      reference path context).1 = true ∧
    ∀ imports2 : List ImportEntry,
      resolve_reference symbols kind reference path
        { ctx with imports := imports2 } context = [] := by
  have hself2 : ∀ imports2 : List ImportEntry,
      resolve_unprefixed symbols kind { ctx with imports := imports2 }
        (unprefixed_local reference) reference path context = [] := by
    intro imports2
    simp [resolve_unprefixed, resolve_self_package] at *
    simp [hself]
  have hmain : ∀ imports2 : List ImportEntry,
      resolve_reference symbols kind reference path
        { ctx with imports := imports2 } context = [] := by
    intro imports2
    rcases hsp : split_reference reference with ⟨o, b⟩
    rcases hpfx with h | h | h <;> rw [hsp] at h <;> simp at h <;>
      simp [resolve_reference, hne, htrim, hsp, h, hself2 imports2]
  refine ⟨?_, ?_, hmain⟩
  · have := hmain ctx.imports
    simpa using this
  · simp [resolve_self_package, hself]

/-- Witness for C1: `schema.user` resolves in self package `p` with no
diagnostics although the imported package `q` also declares `user`. -/
theorem C1_witness :
    ("schema.user" ≠ "" ∧ trimStr "schema.user" = "schema.user" ∧
      lookup_in_package c1sym SymbolKind.Schema c1ctx.self_package c1ctx.nspace
        (unprefixed_local "schema.user") =
        [make_entry SymbolKind.Schema "p" none "user" "f1.toml"] ∧
      lookup_in_package c1sym SymbolKind.Schema "q" none
        (unprefixed_local "schema.user") ≠ []) ∧
    resolve_reference c1sym SymbolKind.Schema "schema.user" "f.toml" c1ctx "ctxt" = [] :=
  ⟨⟨by decide, by decide, by decide, by decide⟩,
    (C1_self_package_wins c1sym SymbolKind.Schema "schema.user" "f.toml" "ctxt" c1ctx
      (make_entry SymbolKind.Schema "p" none "user" "f1.toml")
      (by decide) (by decide) (by decide) (by decide)
      ⟨⟨"q", none⟩, by decide, by decide⟩).1⟩

/-- C2 amended: when the self package has entries with the referenced
local name but none in the context namespace, rule 2 does not yield zero
candidates — `lookup_in_package` falls back to all of the self package's
entries for that name, the self-package rule handles the reference, and
the imported-packages and global rules are never reached. -/
theorem C2_amended (symbols : SymbolTable) (kind : SymbolKind)
    (ctx : FileImportContext) (ns : String) (local_name reference path context : String)
    (hns : ctx.nspace = some ns)
    (hall : symbols.entries.filter
      (fun e => e.kind = kind ∧ e.package = ctx.self_package ∧
        e.local_name = local_name) ≠ [])
    (hexact : (symbols.entries.filter
      (fun e => e.kind = kind ∧ e.package = ctx.self_package ∧
        e.local_name = local_name)).filter (fun e => e.nspace = some ns) = []) :
    lookup_in_package symbols kind ctx.self_package ctx.nspace local_name =
      symbols.entries.filter
        (fun e => e.kind = kind ∧ e.package = ctx.self_package ∧
          e.local_name = local_name) ∧
    (resolve_self_package symbols kind ctx local_name reference path context).1 = true ∧
    resolve_unprefixed symbols kind ctx local_name reference path context =
      (resolve_self_package symbols kind ctx local_name reference path context).2 := by
  have hlk : lookup_in_package symbols kind ctx.self_package ctx.nspace local_name =
      symbols.entries.filter
        (fun e => e.kind = kind ∧ e.package = ctx.self_package ∧
          e.local_name = local_name) := by
    simp only [lookup_in_package, hns]
    rw [hexact]
    simp
  have hfst : (resolve_self_package symbols kind ctx local_name reference path context).1
      = true := by
    simp only [resolve_self_package, hlk]
    rcases hf : symbols.entries.filter
        (fun e => e.kind = kind ∧ e.package = ctx.self_package ∧
          e.local_name = local_name) with _ | ⟨x, xs⟩
    · exact absurd hf hall
    · rw [hf]
      cases xs <;> simp
  refine ⟨hlk, hfst, ?_⟩
  simp only [resolve_unprefixed]
  rw [if_pos hfst]

/-- Witness for C2 amended at the counterexample instance: the two
`p`-package entries in foreign namespaces are the rule 2 candidates. -/
theorem C2_amended_witness :
    (c2ctx.nspace = some "ns" ∧
      c2sym.entries.filter
        (fun e => e.kind = SymbolKind.Schema ∧ e.package = c2ctx.self_package ∧
          e.local_name = "user") ≠ [] ∧
      (c2sym.entries.filter
        (fun e => e.kind = SymbolKind.Schema ∧ e.package = c2ctx.self_package ∧
          e.local_name = "user")).filter (fun e => e.nspace = some "ns") = []) ∧
    (lookup_in_package c2sym SymbolKind.Schema c2ctx.self_package c2ctx.nspace "user" =
      c2sym.entries.filter
        (fun e => e.kind = SymbolKind.Schema ∧ e.package = c2ctx.self_package ∧
          e.local_name = "user") ∧
    (resolve_self_package c2sym SymbolKind.Schema c2ctx "user" "schema.user" "f.toml"
      "ctxt").1 = true ∧
    resolve_unprefixed c2sym SymbolKind.Schema c2ctx "user" "schema.user" "f.toml" "ctxt" =
      (resolve_self_package c2sym SymbolKind.Schema c2ctx "user" "schema.user" "f.toml"
        "ctxt").2) :=
  ⟨⟨by decide, by decide, by decide⟩,
    C2_amended c2sym SymbolKind.Schema c2ctx "ns" "user" "schema.user" "f.toml" "ctxt"
      (by decide) (by decide) (by decide)⟩

/-- C3 amended: a reference with an explicit resolvable prefix is looked
up through `resolve_package_reference`, which consults all entries under
that package, kind and name with no namespace filter; consequently the
outcome is unchanged under any change of the unit's namespace that leaves
the prefix resolving to the same package. -/
theorem C3_amended (symbols : SymbolTable) (kind : SymbolKind)
    (reference path context : String) (ctx : FileImportContext)
    (ns2 : Option String) (pfx base P : String)
    (hne : reference ≠ "")
    (htrim : trimStr reference = reference)
    (hsp : split_reference reference = (some pfx, base))
    (hk1 : pfx ≠ "schema") (hk2 : pfx ≠ "func")
    (h1 : resolve_pkg_of_pfx pfx ctx = some P)
    (h2 : resolve_pkg_of_pfx pfx { ctx with nspace := ns2 } = some P) :
    resolve_reference symbols kind reference path ctx context =
      resolve_package_reference symbols kind P (extract_local_name base)
        reference path context ∧
    resolve_reference symbols kind reference path { ctx with nspace := ns2 } context =
      resolve_reference symbols kind reference path ctx context := by
  constructor
  · simp [resolve_reference, hne, htrim, hsp, hk1, hk2, h1]
  · simp [resolve_reference, hne, htrim, hsp, hk1, hk2, h1, h2]

/-- Witness for C3 amended at the counterexample instance: `p.user`
resolves through the package lookup and is insensitive to dropping the
unit namespace. -/
theorem C3_amended_witness :
    ("p.user" ≠ "" ∧ trimStr "p.user" = "p.user" ∧
      split_reference "p.user" = (some "p", "user") ∧
      resolve_pkg_of_pfx "p" c3ctx = some "p" ∧
      resolve_pkg_of_pfx "p" { c3ctx with nspace := none } = some "p") ∧
    (resolve_reference c3sym SymbolKind.Schema "p.user" "f.toml" c3ctx "ctxt" =
      resolve_package_reference c3sym SymbolKind.Schema "p" (extract_local_name "user")
        "p.user" "f.toml" "ctxt" ∧
    resolve_reference c3sym SymbolKind.Schema "p.user" "f.toml"
        { c3ctx with nspace := none } "ctxt" =
      resolve_reference c3sym SymbolKind.Schema "p.user" "f.toml" c3ctx "ctxt") :=
  ⟨⟨by decide, by decide, by decide, by decide, by decide⟩,
    C3_amended c3sym SymbolKind.Schema "p.user" "f.toml" "ctxt" c3ctx none "p" "user" "p"
      (by decide) (by decide) (by decide) (by decide) (by decide)
      (by decide) (by decide)⟩

/-- C6 amended: for a deploy unit that declares a `canary` or `blue_green`
release with an empty health check, the checker emits `MissingHealthCheck`
provided some job targets a production-kind target (the health-check rule
is inside the production-safety gate). -/
theorem C6_amended (deploy : DeployFile) (rel : Release)
    (hrel : deploy.release = some rel)
    (hstrat : rel.strategy = "canary" ∨ rel.strategy = "blue_green")
    (hhc : rel.health_check = "")
    (hprod : has_prod_jobs deploy = true) :
    missing_health_check_diag rel.strategy ∈ check_deploy_file deploy := by
  have hz : (match deploy.release with
      | some release =>
        if (release.strategy = "canary" ∨ release.strategy = "blue_green") ∧
            release.health_check = "" then
          [missing_health_check_diag release.strategy]
        else []
      | none => []) = [missing_health_check_diag rel.strategy] := by
    rw [hrel]
    exact if_pos ⟨hstrat, hhc⟩
  have hmem : missing_health_check_diag rel.strategy ∈ check_prod_safety deploy := by
    simp only [check_prod_safety, hprod, if_true, hz, List.mem_append]
    simp
  simp only [check_deploy_file, List.mem_append]
  exact Or.inl (Or.inr hmem)

/-- Witness for C6 amended: the production-targeting variant of the
canary-with-empty-health-check unit does get `MissingHealthCheck`. -/
theorem C6_amended_witness :
    (c6deployProd.release = some ⟨"canary", ""⟩ ∧
      has_prod_jobs c6deployProd = true) ∧
    missing_health_check_diag "canary" ∈ check_deploy_file c6deployProd :=
  ⟨⟨by decide, by decide⟩,
    C6_amended c6deployProd ⟨"canary", ""⟩ (by decide) (Or.inl (by decide)) (by decide)
      (by decide)⟩

/-- Retention keeps an entire leading block whose `(from, to)` keys are
distinct and unseen, and continues on the tail with those keys recorded. -/
theorem retainFirstPairs_append (xs ys : List NormalizedRequire) :
    ∀ seen, (xs.map (fun e => (e.from_mod, e.to_mod))).Nodup →
    (∀ e ∈ xs, (e.from_mod, e.to_mod) ∉ seen) →
    retainFirstPairs seen (xs ++ ys) =
      xs ++ retainFirstPairs
        ((xs.map (fun e => (e.from_mod, e.to_mod))).reverse ++ seen) ys := by
  induction xs with
  | nil => intro seen _ _; simp
  | cons x xs ih =>
    intro seen hnd hdisj
    have hx : (x.from_mod, x.to_mod) ∉ seen := hdisj x (List.mem_cons_self x xs)
    have hnd2 := (List.nodup_cons.mp hnd).2
    have hhd := (List.nodup_cons.mp hnd).1
    have hdisj2 : ∀ e ∈ xs, (e.from_mod, e.to_mod) ∉ (x.from_mod, x.to_mod) :: seen := by
      intro e he
      rw [List.mem_cons]
      rintro (heq | hmem)
      · apply hhd
        have h2 := List.mem_map_of_mem (fun e => (e.from_mod, e.to_mod)) he
        simpa [heq] using h2
      · exact hdisj e (List.mem_cons_of_mem x he) hmem
    simp only [List.cons_append, retainFirstPairs, if_neg hx, List.append_eq]
    rw [ih ((x.from_mod, x.to_mod) :: seen) hnd2 hdisj2]
    simp [List.append_assoc]

/-- Counting lemma behind the amended C8: a block of distinct require
targets over distinct modules survives retention in full. -/
theorem c8_core (path : String) (mods : List String) (hm : mods.Nodup) :
    ∀ (reqs : List RequireDecl) (seen : List (String × String)),
    (reqs.map (fun r => r.target)).Nodup →
    (∀ r ∈ reqs, ∀ m ∈ mods, (m, r.target) ∉ seen) →
    (retainFirstPairs seen (reqs.flatMap (fun req => mods.map
      (fun fm => (⟨fm, req.target, req.target, path⟩ : NormalizedRequire))))).length
      = reqs.length * mods.length := by
  intro reqs
  induction reqs with
  | nil => intro seen _ _; simp [retainFirstPairs]
  | cons r rest ih =>
    intro seen hnd hdisj
    have hkeys : ((mods.map (fun fm =>
          (⟨fm, r.target, r.target, path⟩ : NormalizedRequire))).map
            (fun e => (e.from_mod, e.to_mod)))
        = mods.map (fun m => (m, r.target)) := by
      rw [List.map_map]
      rfl
    have hinj : Function.Injective (fun m : String => (m, r.target)) := by
      intro a b hab
      exact ((Prod.mk.injEq _ _ _ _).mp hab).1
    have hnd2 := (List.nodup_cons.mp hnd).2
    have hhd := (List.nodup_cons.mp hnd).1
    simp only [List.flatMap_cons]
    rw [retainFirstPairs_append _ _ seen (by rw [hkeys]; exact hm.map hinj) ?hdj]
    case hdj =>
      intro e he
      obtain ⟨m, hmem, rfl⟩ := List.mem_map.mp he
      exact hdisj r (List.mem_cons_self r rest) m hmem
    rw [List.length_append, List.length_map]
    rw [ih _ hnd2 ?hdj2]
    case hdj2 =>
      intro r2 hr2 m hmm
      rw [List.mem_append]
      rintro (hmem | hmem)
      · rw [List.mem_reverse, hkeys, List.mem_map] at hmem
        obtain ⟨m2, _, heq⟩ := hmem
        have ht : r2.target = r.target := ((Prod.mk.injEq _ _ _ _).mp heq).2.symm
        apply hhd
        have h3 := List.mem_map_of_mem (fun r => r.target) hr2
        simpa [ht] using h3
      · exact hdisj r2 (List.mem_cons_of_mem r hr2) m hmm hmem
    simp only [List.length_cons]
    ring

/-- C8 amended: a single-unit project with distinctly-named modules and
pairwise-distinct require targets yields exactly N×M normalized edges;
(the counterexample shows duplicated `(module, target)` pairs are dropped,
which is the only correction to the claim). -/
theorem C8_amended (path : String) (f : SurvFile)
    (hmods : (mods_in_file f).Nodup)
    (hreqs : (f.requires.map (fun r => r.target)).Nodup) :
    ((ProjectAST.from_files [(path, f)]).collect_normalized_requires).length =
      (mods_in_file f).length * f.requires.length := by
  have hfiles : (ProjectAST.from_files [(path, f)]).files = [(path, f)] := rfl
  by_cases hemp : mods_in_file f = []
  · simp [ProjectAST.collect_normalized_requires, hfiles, hemp, retainFirstPairs]
  · simp only [ProjectAST.collect_normalized_requires, hfiles, List.flatMap_cons,
      List.flatMap_nil, List.append_nil, List.isEmpty_iff, hemp, if_neg,
      Bool.false_eq_true, not_false_eq_true]
    rw [c8_core path (mods_in_file f) hmods f.requires [] hreqs
      (by intro r _ m _ h; exact List.not_mem_nil _ h)]
    exact Nat.mul_comm _ _

/-- Witness for C8 amended: one module and two distinct require targets
give 1×2 = 2 edges. -/
theorem C8_amended_witness :
    ((mods_in_file ⟨none, none, [], [⟨"mod.x"⟩, ⟨"mod.y"⟩],
        [Section.Mod ⟨"alpha", "", [], [], []⟩]⟩).Nodup ∧
      (([⟨"mod.x"⟩, ⟨"mod.y"⟩] : List RequireDecl).map (fun r => r.target)).Nodup) ∧
    ((ProjectAST.from_files [("a.toml", ⟨none, none, [], [⟨"mod.x"⟩, ⟨"mod.y"⟩],
        [Section.Mod ⟨"alpha", "", [], [], []⟩]⟩)]).collect_normalized_requires).length =
      (mods_in_file ⟨none, none, [], [⟨"mod.x"⟩, ⟨"mod.y"⟩],
        [Section.Mod ⟨"alpha", "", [], [], []⟩]⟩).length * 2 :=
  ⟨⟨by decide, by decide⟩,
    C8_amended "a.toml" ⟨none, none, [], [⟨"mod.x"⟩, ⟨"mod.y"⟩],
      [Section.Mod ⟨"alpha", "", [], [], []⟩]⟩ (by decide) (by decide)⟩

/-- Seen-set scan lemma behind C9: a step that is already seen and occurs
again, or occurs at least twice in the remaining list, gets its
`PipelineCycle` diagnostic emitted. -/
theorem pipeCycleLoop_mem (module : ModSection) (step : String) :
    ∀ (l seen : List String),
    ((step ∈ seen ∧ step ∈ l) ∨ 2 ≤ l.count step) →
    pipeline_cycle_diag module step ∈ pipeCycleLoop module seen l := by
  intro l
  induction l with
  | nil =>
    intro seen h
    rcases h with ⟨_, h⟩ | h
    · exact absurd h (List.not_mem_nil step)
    · simp at h
  | cons s rest ih =>
    intro seen h
    by_cases hs : s ∈ seen
    · simp only [pipeCycleLoop, if_pos hs]
      by_cases heq : s = step
      · subst heq
        exact List.mem_cons_self _ _
      · refine List.mem_cons_of_mem _ (ih seen ?_)
        rcases h with ⟨h1, h2⟩ | h2
        · refine Or.inl ⟨h1, ?_⟩
          rcases List.mem_cons.mp h2 with h3 | h3
          · exact absurd h3.symm heq
          · exact h3
        · refine Or.inr ?_
          simpa [List.count_cons, heq] using h2
    · simp only [pipeCycleLoop, if_neg hs]
      apply ih (s :: seen)
      rcases h with ⟨h1, h2⟩ | h2
      · refine Or.inl ⟨List.mem_cons_of_mem s h1, ?_⟩
        rcases List.mem_cons.mp h2 with h3 | h3
        · exact absurd (h3 ▸ h1) hs
        · exact h3
      · by_cases heq : s = step
        · subst heq
          have h3 : (s :: rest).count s = rest.count s + 1 := by
            simp [List.count_cons]
          rw [h3] at h2
          have hone : 0 < rest.count s := by omega
          exact Or.inl ⟨List.mem_cons_self s seen, List.count_pos_iff.mp hone⟩
        · refine Or.inr ?_
          simpa [List.count_cons, heq] using h2

/-- C9: a module of the unit whose pipeline lists the same func reference
at least twice gets a `PipelineCycle` error diagnostic naming that
reference among the unit checker's diagnostics. -/
theorem C9_pipeline_repetition (file : SurvFile) (mname : String) (module : ModSection)
    (step : String)
    (hmod : (mname, module) ∈ (FileIndex.new file).mods)
    (hdup : 2 ≤ module.pipeline.count step) :
    pipeline_cycle_diag module step ∈ check_surv_file file ∧
    (pipeline_cycle_diag module step).severity = "error" ∧
    (pipeline_cycle_diag module step).kind = "PipelineCycle" ∧
    (pipeline_cycle_diag module step).message =
      "mod " ++ mod_id module ++ ": pipeline has a cycle involving " ++ step
        ++ " (appears multiple times)" := by
  refine ⟨?_, rfl, rfl, rfl⟩
  have hne : module.pipeline.isEmpty = false := by
    have hmem0 : step ∈ module.pipeline := List.count_pos_iff.mp (by omega)
    cases hpl : module.pipeline with
    | nil => rw [hpl] at hmem0; exact absurd hmem0 (List.not_mem_nil step)
    | cons a l => rfl
  have hmem : pipeline_cycle_diag module step ∈
      check_pipeline_semantics (FileIndex.new file) := by
    rw [check_pipeline_semantics]
    rw [List.mem_flatMap]
    refine ⟨(mname, module), hmod, ?_⟩
    rw [hne]
    simp only [Bool.false_eq_true, if_false, List.mem_append]
    exact Or.inl (pipeCycleLoop_mem module step module.pipeline [] (Or.inr hdup))
  simp only [check_surv_file, List.mem_append]
  tauto

/-- Witness for C9: the module `api` with pipeline
`[func.step_a, func.step_b, func.step_a]` gets a `PipelineCycle`
diagnostic naming `func.step_a`. -/
theorem C9_witness :
    (("mod.api", (⟨"api", "t", ["schema.user"], ["func.step_a", "func.step_b"],
        ["func.step_a", "func.step_b", "func.step_a"]⟩ : ModSection)) ∈
        (FileIndex.new pipeFile).mods ∧
      2 ≤ (["func.step_a", "func.step_b", "func.step_a"] : List String).count "func.step_a") ∧
    pipeline_cycle_diag ⟨"api", "t", ["schema.user"], ["func.step_a", "func.step_b"],
        ["func.step_a", "func.step_b", "func.step_a"]⟩ "func.step_a" ∈
      check_surv_file pipeFile :=
  ⟨⟨by decide, by decide⟩,
    (C9_pipeline_repetition pipeFile "mod.api"
      ⟨"api", "t", ["schema.user"], ["func.step_a", "func.step_b"],
        ["func.step_a", "func.step_b", "func.step_a"]⟩ "func.step_a"
      (by decide) (by decide)).1⟩
